import Mathlib

/-!
Verification of the `python_module_00` exercise repository.

Each Python script is shallowly embedded: pure fragments become Lean
functions, printing becomes an explicit list of output events, Python
exceptions become `Except`/`Option` results, and Python's arbitrary
precision `int` becomes `Int` (or `Nat` where the source guarantees
non-negativity).
-/

namespace Module02

/-- The custom exception hierarchy of
`python_module_02/ex2/ft_custom_errors.py`: `PlantError(plant_name,
problem)` and `WaterError(issue)`, both subclasses of `GardenError`. -/
inductive GardenError where
  | plantError (plant_name problem : String)
  | waterError (issue : String)
deriving DecidableEq, Repr

/-- Model of `check_water_tank` from `ft_custom_errors.py`: raises
`WaterError("Not enough water in the tank")` when `tank_level < 20`,
else raises `WaterError("Water tank is empty")` when `tank_level < 0`,
else prints a confirmation line (returned here as the `ok` value). -/
def check_water_tank (tank_level : Int) : Except GardenError String :=
  if tank_level < 20 then
    .error (.waterError "Not enough water in the tank")
  else if tank_level < 0 then
    .error (.waterError "Water tank is empty")
  else
    .ok ("Water tank level is good: " ++ toString tank_level ++ "%")

end Module02

namespace Module00

/-- One printed line of the `Day .. / Harvest time!` countdown; both the
recursive and the iterative script print lines of exactly these two
shapes (`f"Day {n}"` and `"Harvest time!"`). -/
inductive HarvestLine where
  | day (n : Nat)
  | harvest
deriving DecidableEq, Repr

/-- The inner `recursive` helper of
`ft_count_harvest_recursive.py`: for `days > 0` it first recurses on
`days - 1`, then prints `Day {days}`. -/
def recursive : Nat → List HarvestLine
  | 0 => []
  | n + 1 => recursive n ++ [.day (n + 1)]

/-- Model of `ft_count_harvest_recursive` after a non-negative `days` has been
accepted by the input loop: the recursive countdown, then
`Harvest time!`. -/
def ft_count_harvest_recursive (days : Nat) : List HarvestLine :=
  recursive days ++ [.harvest]

/-- Model of `ft_count_harvest_iterative` after a non-negative `days` has been
accepted by the input loop: `for i in range(days): print(f"Day {i + 1}")`,
then `Harvest time!`. -/
def ft_count_harvest_iterative (days : Nat) : List HarvestLine :=
  (List.range days).map (fun i => .day (i + 1)) ++ [.harvest]

/-- Python `int(s)` on a decimal string: optional surrounding
whitespace, an optional sign, then a non-empty run of digits
(`None` models a raised `ValueError`). -/
def pyInt (s : String) : Option Int :=
  let t := ((s.data.dropWhile Char.isWhitespace).reverse.dropWhile
    Char.isWhitespace).reverse
  let core : Int × List Char :=
    match t with
    | '+' :: r => (1, r)
    | '-' :: r => (-1, r)
    | r => (1, r)
  if core.2 ≠ [] ∧ core.2.all Char.isDigit then
    some (core.1 * (core.2.foldl (fun acc c => 10 * acc + (c.toNat - 48)) 0 : Nat))
  else
    none

/-- Python `max` over a non-empty list (the `[]` case is unreachable at
the call site, which is guarded by `len(scores) == 0`). -/
def listMax : List Int → Int
  | [] => 0
  | h :: t => t.foldl max h

/-- Python `min` over a non-empty list (the `[]` case is unreachable at
the call site, which is guarded by `len(scores) == 0`). -/
def listMin : List Int → Int
  | [] => 0
  | h :: t => t.foldl min h

/-- One printed line of `ft_score_analytics.py`.  The average is the
exact rational value of Python's float division `sum(scores) /
len(scores)` (exact for the inputs at issue). -/
inductive ScoreLine where
  | header
  | usage
  | warning (arg : String)
  | noValid
  | scoresProcessed (scores : List Int)
  | totalPlayers (n : Nat)
  | totalScore (s : Int)
  | averageScore (q : ℚ)
  | highScore (s : Int)
  | lowScore (s : Int)
  | scoreRange (s : Int)
deriving DecidableEq, Repr

/-- Model of `ft_score_analytics` from `all_files/ft_score_analytics.py`, as a
function from `sys.argv[1:]` to the list of printed lines: prints the
header; on no arguments prints usage; otherwise parses each argument
with `int` (warning on failure), then either reports no valid scores or
prints the six statistics lines. -/
def ft_score_analytics (argv : List String) : List ScoreLine :=
  let warnings := argv.filterMap fun a =>
    if (pyInt a).isNone then some (ScoreLine.warning a) else none
  let scores := argv.filterMap pyInt
  ScoreLine.header ::
    (if argv.isEmpty then [ScoreLine.usage]
     else if scores.isEmpty then warnings ++ [ScoreLine.noValid]
     else warnings ++
       [ScoreLine.scoresProcessed scores,
        ScoreLine.totalPlayers scores.length,
        ScoreLine.totalScore scores.sum,
        ScoreLine.averageScore ((scores.sum : ℚ) / (scores.length : ℚ)),
        ScoreLine.highScore (listMax scores),
        ScoreLine.lowScore (listMin scores),
        ScoreLine.scoreRange (listMax scores - listMin scores)])

end Module00

namespace Module02

/-- A raised Python exception, as observed by the two
`python_module_02` demo scripts: the custom `GardenError` hierarchy
plus the built-in exception kinds the scripts provoke. -/
inductive PyExc where
  | garden (e : GardenError)
  | attributeError (msg : String)
  | valueError (msg : String)
  | zeroDivisionError (msg : String)
  | fileNotFoundError (msg : String)
  | keyError (msg : String)
deriving DecidableEq, Repr

/-- A Python statement sequence: it can print lines (the state) and
raise an exception (`PyExc`). -/
abbrev PyM (α : Type) := ExceptT PyExc (StateM (List String)) α

/-- Model of `print(s)`: append one line to the output. -/
def printLn (s : String) : PyM Unit :=
  ExceptT.lift (modify fun out => out ++ [s])

/-- Run a `PyM` computation from empty output: the escaping exception
(if any) and the lines printed before it. -/
def runPy (m : PyM Unit) : Except PyExc Unit × List String :=
  (ExceptT.run m).run []

/-- Model of `str(e)` for a `GardenError` instance: the message built in
`PlantError.__init__` / `WaterError.__init__` and passed to
`super().__init__`. -/
def strOfGardenError : GardenError → String
  | .plantError plant_name problem => "The " ++ plant_name ++ " plant " ++ problem ++ "!"
  | .waterError issue => issue ++ "!"

/-- Python attribute access `e.message` on a caught `GardenError`.
Neither `PlantError.__init__` (which assigns `plant_name` and
`problem`) nor `WaterError.__init__` (which assigns `issue`) assigns
`self.message`, and Python 3's `BaseException` has no `message`
attribute, so the access raises `AttributeError`. -/
def messageAttr (e : GardenError) : PyM String :=
  match e with
  | .plantError _ _ =>
      throw (.attributeError "'PlantError' object has no attribute 'message'")
  | .waterError _ =>
      throw (.attributeError "'WaterError' object has no attribute 'message'")

/-- Model of `check_plant_status` from `ft_custom_errors.py`. -/
def check_plant_status (plant_name : String) : PyM Unit :=
  if plant_name = "tomato" then
    throw (.garden (.plantError plant_name "is wilting"))
  else if plant_name = "lettuce" then
    throw (.garden (.plantError plant_name "has yellow leaves"))
  else
    printLn (plant_name ++ " is healthy!")

/-- Model of `check_water_tank` lifted into the statement monad (raising the
`GardenError` or printing the confirmation line). -/
def check_water_tank_m (tank_level : Int) : PyM Unit :=
  match check_water_tank tank_level with
  | .error e => throw (.garden e)
  | .ok line => printLn line

/-- Model of `try: body except PlantError as e: handler e` — only `PlantError`
instances are caught, every other exception propagates. -/
def catchPlantError (body : PyM Unit) (handler : GardenError → PyM Unit) : PyM Unit :=
  tryCatch body fun exc =>
    match exc with
    | .garden (.plantError n p) => handler (.plantError n p)
    | e => throw e

/-- Model of `try: body except WaterError as e: handler e`. -/
def catchWaterError (body : PyM Unit) (handler : GardenError → PyM Unit) : PyM Unit :=
  tryCatch body fun exc =>
    match exc with
    | .garden (.waterError i) => handler (.waterError i)
    | e => throw e

/-- Model of `try: body except GardenError as e: handler e` — the base class
catches both `PlantError` and `WaterError`. -/
def catchGardenError (body : PyM Unit) (handler : GardenError → PyM Unit) : PyM Unit :=
  tryCatch body fun exc =>
    match exc with
    | .garden e => handler e
    | e => throw e

/-- Model of `test_custom_errors` from `ft_custom_errors.py`, statement by
statement.  The `errors_to_test` entries are `("tomato", None)` and
`(None, 5)`; `if plant:` selects on the (truthy) first component. -/
def test_custom_errors : PyM Unit := do
  printLn "=== Custom Garden Errors Demo ===\n"
  printLn "Testing PlantError..."
  catchPlantError (check_plant_status "tomato") fun e =>
    printLn ("Caught PlantError: " ++ strOfGardenError e)
  printLn ""
  printLn "Testing WaterError..."
  catchWaterError (check_water_tank_m 10) fun e => do
    let m ← messageAttr e
    printLn ("Caught WaterError: " ++ m)
  printLn ""
  printLn "Testing catching all garden errors..."
  for entry in [(some "tomato", (none : Option Int)), ((none : Option String), some 5)] do
    catchGardenError
      (match entry.1 with
       | some plant => check_plant_status plant
       | none => check_water_tank_m (entry.2.getD 0))
      fun e => do
        let m ← messageAttr e
        printLn ("Caught a garden error: " ++ m)
  printLn "\nAll custom error types work correctly!"

/-- The plant database `garden_data` of `ft_different_errors.py`. -/
def garden_data : List (String × List (String × Int)) :=
  [("tomato", [("water", 5), ("sunlight", 8)]),
   ("lettuce", [("water", 7), ("sunlight", 6)]),
   ("carrots", [("water", 4), ("sunlight", 9)])]

/-- Python dictionary subscript `d[k]`: raises `KeyError(repr(k))` when
the key is absent. -/
def dictGet (d : List (String × α)) (k : String) : PyM α :=
  match d.lookup k with
  | some v => pure v
  | none => throw (.keyError ("'" ++ k ++ "'"))

/-- Python `int(s)` raising `ValueError` on an unparsable literal. -/
def pyIntExc (s : String) : PyM Int :=
  match Module00.pyInt s with
  | some n => pure n
  | none => throw (.valueError ("invalid literal for int() with base 10: '" ++ s ++ "'"))

/-- Python true division `a / b` on integers: a float (modelled as the
exact rational), raising `ZeroDivisionError` when `b = 0`. -/
def pyDivInt (a b : Int) : PyM ℚ :=
  if b = 0 then throw (.zeroDivisionError "division by zero")
  else pure ((a : ℚ) / (b : ℚ))

/-- Python `open(fname)` followed by `.read()`, against a filesystem
`fs` mapping file names to contents: raises `FileNotFoundError` when
the file is absent. -/
def pyOpen (fs : String → Option String) (fname : String) : PyM String :=
  match fs fname with
  | some content => pure content
  | none =>
      throw (.fileNotFoundError ("[Errno 2] No such file or directory: '" ++ fname ++ "'"))

/-- Model of `garden_operations` from `ft_different_errors.py`: provokes one
error kind per `operation_type` (the prints after each provoking
expression are unreachable but kept). -/
def garden_operations (fs : String → Option String) (operation_type : String) : PyM Unit :=
  if operation_type = "value" then do
    let temperature ← pyIntExc "abc"
    printLn ("Temperature: " ++ toString temperature)
  else if operation_type = "division" then do
    let plants_count : Int := 10
    let sections : Int := 0
    let plants_per_section ← pyDivInt plants_count sections
    printLn ("Plants per section: " ++ toString plants_per_section)
  else if operation_type = "file" then do
    let data ← pyOpen fs "missing.txt"
    printLn ("File data: " ++ data)
  else if operation_type = "key" then do
    let plant_info ← dictGet garden_data "missing_plant"
    printLn ("Plant info: " ++ toString plant_info)
  else if operation_type = "multiple" then do
    let value ← pyIntExc "invalid"
    printLn ("Value: " ++ toString value)
  else
    pure ()

/-- Model of `test_error_types` from `ft_different_errors.py`, statement by
statement. -/
def test_error_types (fs : String → Option String) : PyM Unit := do
  printLn "=== Garden Error Types Demo ===\n"
  printLn "Testing ValueError..."
  tryCatch (garden_operations fs "value") fun e =>
    match e with
    | .valueError msg => printLn ("Caught ValueError: " ++ msg)
    | exc => throw exc
  printLn ""
  printLn "Testing ZeroDivisionError..."
  tryCatch (garden_operations fs "division") fun e =>
    match e with
    | .zeroDivisionError msg => printLn ("Caught ZeroDivisionError: " ++ msg)
    | exc => throw exc
  printLn ""
  printLn "Testing FileNotFoundError..."
  tryCatch (garden_operations fs "file") fun e =>
    match e with
    | .fileNotFoundError _ => printLn "Caught FileNotFoundError: No such file 'missing.txt'"
    | exc => throw exc
  printLn ""
  printLn "Testing KeyError..."
  tryCatch (garden_operations fs "key") fun e =>
    match e with
    | .keyError msg => printLn ("Caught KeyError: " ++ msg)
    | exc => throw exc
  printLn ""
  printLn "Testing multiple errors together..."
  for error_type in ["value", "division", "file", "key"] do
    tryCatch (garden_operations fs error_type) fun e =>
      match e with
      | .valueError _ => printLn "Caught an error, but program continues!"
      | .zeroDivisionError _ => printLn "Caught an error, but program continues!"
      | .fileNotFoundError _ => printLn "Caught an error, but program continues!"
      | .keyError _ => printLn "Caught an error, but program continues!"
      | exc => throw exc
  printLn "\nAll error types tested successfully!"

end Module02

/-- Python dictionary assignment `d[k] = v` on an insertion-ordered
dictionary: an existing key keeps its position and gets the new value,
a new key is appended at the end. -/
def pyDictInsert {α : Type} (d : List (String × α)) (k : String) (v : α) :
    List (String × α) :=
  if d.any (fun kv => kv.1 == k) then
    d.map fun kv => if kv.1 == k then (k, v) else kv
  else
    d ++ [(k, v)]

/-- Python `s.startswith(pre)`: `pre` is a prefix of the character
sequence of `s`. -/
def pyStartswith (s pre : String) : Bool :=
  pre.data.isPrefixOf s.data

/-- Python `str.split()` with no argument (as `name.lower().split()`
uses it): split on runs of whitespace, discarding empty words.  The
accumulator holds the current word reversed. -/
def pySplitAux : List Char → List Char → List (List Char)
  | [], acc => if acc = [] then [] else [acc.reverse]
  | c :: r, acc =>
      if c.isWhitespace then
        if acc = [] then pySplitAux r [] else acc.reverse :: pySplitAux r []
      else
        pySplitAux r (c :: acc)

/-- Python `str.split()` on a character list. -/
def pySplitWords (l : List Char) : List (List Char) :=
  pySplitAux l []

/-- Decimal digit characters of `n` (big-endian, empty for `0`),
computed with explicit fuel so that it is structural and evaluates in
the kernel. -/
def natCharsAux : Nat → Nat → List Char
  | 0, _ => []
  | _ + 1, 0 => []
  | fuel + 1, m + 1 =>
      natCharsAux fuel ((m + 1) / 10) ++ [Nat.digitChar ((m + 1) % 10)]

/-- Decimal digit characters of `n` (big-endian, empty for `0`). -/
def natChars (n : Nat) : List Char :=
  natCharsAux n n

/-- Python `f"{n:03d}"`: the decimal digits of `n` left-padded with
`'0'` to at least three characters. -/
def pyFormat3 (n : Nat) : List Char :=
  List.replicate (3 - (natChars n).length) '0' ++ natChars n

/-- The numeric value of a big-endian digit-character list (how a
generated id suffix reads as a number). -/
def valChars (p : List Char) : Nat :=
  p.foldl (fun acc c => 10 * acc + (c.toNat - 48)) 0

namespace Module07

/-- Model of `TournamentCard` from `python_module_07/ex4/tournament_card.py`
(with the attributes set by `Card.__init__` and
`TournamentCard.__init__`). -/
structure TournamentCard where
  name : String
  cost : Int
  rarity : String
  attack_power : Int
  max_health : Int
  health : Int
  defense : Int
  wins : Int
  losses : Int
  rating : Int
deriving DecidableEq, Repr

/-- Model of `TournamentCard.calculate_rating`: sets
`self.rating = (1200 - (7 - cost) * 50) + wins * 16 - losses * 16`
(and returns it; here the updated card is returned). -/
def calculate_rating (c : TournamentCard) : TournamentCard :=
  let base_rating : Int := 1200 - ((7 - c.cost) * 50)
  let rating_per_win : Int := 16
  let rating_per_loss : Int := 16
  { c with rating := base_rating + c.wins * rating_per_win - c.losses * rating_per_loss }

/-- Model of `TournamentCard.__init__` (including `Card.__init__`'s `cost < 0`
check; the `isinstance` type checks cannot fail in a typed embedding).
On success `wins = losses = 0` and the rating is initialised by
`calculate_rating`. -/
def TournamentCard.init (name : String) (cost : Int) (rarity : String)
    (attack health defense : Int) : Except String TournamentCard :=
  if cost < 0 then .error "Card cost cannot be negative"
  else if attack ≤ 0 then .error "Attack must be positive"
  else if health ≤ 0 then .error "Health must be positive"
  else if defense < 0 then .error "Defense cannot be negative"
  else .ok (calculate_rating
    { name := name, cost := cost, rarity := rarity, attack_power := attack,
      max_health := health, health := health, defense := defense,
      wins := 0, losses := 0, rating := 0 })

/-- Model of `TournamentCard.update_wins`: rejects a negative argument, else
adds to `wins` and recalculates the rating. -/
def TournamentCard.update_wins (c : TournamentCard) (wins : Int) :
    Except String TournamentCard :=
  if wins < 0 then .error "Wins cannot be negative"
  else .ok (calculate_rating { c with wins := c.wins + wins })

/-- Model of `TournamentCard.update_losses`: rejects a negative argument, else
adds to `losses` and recalculates the rating. -/
def TournamentCard.update_losses (c : TournamentCard) (losses : Int) :
    Except String TournamentCard :=
  if losses < 0 then .error "Losses cannot be negative"
  else .ok (calculate_rating { c with losses := c.losses + losses })

/-- The rating invariant implicit in `calculate_rating`. -/
def rating_invariant (c : TournamentCard) : Prop :=
  c.rating = (1200 - (7 - c.cost) * 50) + 16 * c.wins - 16 * c.losses

/-- Model of `TournamentPlatform` state: the insertion-ordered card dictionary,
the match counter and the status string. -/
structure TournamentPlatform where
  _cards : List (String × TournamentCard)
  _matches_played : Nat
  _platform_status : String
deriving DecidableEq, Repr

/-- Model of `TournamentPlatform.__init__`. -/
def TournamentPlatform.init : TournamentPlatform :=
  { _cards := [], _matches_played := 0, _platform_status := "active" }

/-- The `base_name` computed by `register_card`: last word of
`card.name.lower().split()`, or `"card"` when the name has no words. -/
def base_name_of (name : String) : String :=
  match (pySplitWords (name.data.map Char.toLower)).getLast? with
  | some w => ⟨w⟩
  | none => "card"

/-- Model of `TournamentPlatform.register_card`: counts the existing ids that
start with `base_name + "_"`, forms
`card_id = f"{base_name}_{count + 1:03d}"`, and stores the card under
it (the `isinstance` check cannot fail in a typed embedding). -/
def TournamentPlatform.register_card (p : TournamentPlatform)
    (card : TournamentCard) : String × TournamentPlatform :=
  let base_name := base_name_of card.name
  let count := (p._cards.map Prod.fst).countP
    fun card_id => pyStartswith card_id (base_name ++ "_")
  let card_id := base_name ++ "_" ++ (⟨pyFormat3 (count + 1)⟩ : String)
  (card_id, { p with _cards := pyDictInsert p._cards card_id card })

/-- The match-result dictionary returned by `create_match`. -/
structure MatchResult where
  winner : String
  loser : String
  winner_rating : Int
  loser_rating : Int
deriving DecidableEq, Repr

/-- Model of `TournamentPlatform.create_match`: validates both ids, decides the
winner by `attack_power` (a tie is decided by `random.random() < 0.5`,
passed in as `coin`), applies `update_wins(1)` / `update_losses(1)`
(their non-negativity checks pass for the literal `1`), and counts the
match. -/
def TournamentPlatform.create_match (p : TournamentPlatform)
    (card1_id card2_id : String) (coin : Bool) :
    Except String (MatchResult × TournamentPlatform) :=
  match p._cards.lookup card1_id, p._cards.lookup card2_id with
  | none, _ => .error ("Card " ++ card1_id ++ " not registered")
  | some _, none => .error ("Card " ++ card2_id ++ " not registered")
  | some card1, some card2 =>
    if card1_id = card2_id then .error "Card cannot match against itself"
    else
      let sel : String × String × TournamentCard × TournamentCard :=
        if card1.attack_power > card2.attack_power then
          (card1_id, card2_id, card1, card2)
        else if card2.attack_power > card1.attack_power then
          (card2_id, card1_id, card2, card1)
        else if coin then (card1_id, card2_id, card1, card2)
        else (card2_id, card1_id, card2, card1)
      let winner := calculate_rating { sel.2.2.1 with wins := sel.2.2.1.wins + 1 }
      let loser := calculate_rating { sel.2.2.2 with losses := sel.2.2.2.losses + 1 }
      .ok ({ winner := sel.1, loser := sel.2.1,
             winner_rating := winner.rating, loser_rating := loser.rating },
           { p with
               _cards := pyDictInsert (pyDictInsert p._cards sel.1 winner) sel.2.1 loser,
               _matches_played := p._matches_played + 1 })

/-- One row of the leaderboard (`win_rate`, a formatted float not used
by any ranking decision, is omitted). -/
structure LeaderboardEntry where
  rank : Nat
  card_id : String
  name : String
  rating : Int
  record : String
deriving DecidableEq, Repr

/-- Model of `TournamentPlatform.get_leaderboard`: all registered cards, stably
sorted by rating descending (Python's stable `sorted` with
`reverse=True`), ranked from 1. -/
def TournamentPlatform.get_leaderboard (p : TournamentPlatform) :
    List LeaderboardEntry :=
  let sorted_cards := p._cards.mergeSort fun a b => b.2.rating ≤ a.2.rating
  sorted_cards.enum.map fun ie =>
    { rank := ie.1 + 1, card_id := ie.2.1, name := ie.2.2.name,
      rating := ie.2.2.rating,
      record := toString ie.2.2.wins ++ "-" ++ toString ie.2.2.losses }

/-- A sequence of `register_card` calls: the ids returned, in order,
and the final platform. -/
def registerSeq (p : TournamentPlatform) :
    List TournamentCard → List String × TournamentPlatform
  | [] => ([], p)
  | c :: cs =>
      let r := p.register_card c
      let rest := registerSeq r.2 cs
      (r.1 :: rest.1, rest.2)

/-- The import lists of the `python_module_07/ex4` files and of
`all_files/ft_score_analytics.py`, and the repository-internal modules
they refer to, transcribed from the sources. -/
def tournament_platform_imports : List String :=
  ["random", "typing", "ex4.tournament_card"]

/-- Imports of `tournament_card.py`. -/
def tournament_card_imports : List String :=
  ["typing", "ex0.card", "ex2.combatable", "ex4.rankable"]

/-- Imports of `ft_score_analytics.py`. -/
def ft_score_analytics_imports : List String :=
  ["sys"]

/-- Modules defined by files of this repository (the `ex*` packages of
`python_module_07`). -/
def repository_modules : List String :=
  ["ex0.card", "ex0.creature_card", "ex1.artifact_card", "ex1.spell_card",
   "ex1.deck", "ex2.combatable", "ex2.magical", "ex2.elite_card",
   "ex3.card_factory", "ex3.game_strategy", "ex4.rankable",
   "ex4.tournament_card", "ex4.tournament_platform"]

/-- A file is self-contained when none of its imports is a module
defined by another file of the repository. -/
def self_contained (imports : List String) : Bool :=
  imports.all fun m => !(repository_modules.contains m)

end Module07

/-- Count of keys (as character lists) that start with `b ++ "_"`, the
quantity `register_card` computes to number a new id. -/
def prefCount (b : List Char) (ks : List (List Char)) : Nat :=
  ks.countP fun k => (b ++ ['_']).isPrefixOf k

/-- Freshness invariant of a platform's key set: every key of the shape
`b ++ "_" ++ digits` reads as a number that is at most the number of
keys starting with `b ++ "_"`.  It holds on every platform reachable by
registrations and forces each generated id `f"{b}_{count + 1:03d}"` to
be new. -/
def KeyInv (ks : List (List Char)) : Prop :=
  ∀ (b p : List Char), (∀ c ∈ p, c.isDigit = true) →
    (b ++ '_' :: p) ∈ ks → valChars p ≤ prefCount b ks

namespace Module01

/-- Model of `Plant` from `python_module_01/ex6/ft_garden_analytics.py` (the
flowering/prize subclasses add fields no claim depends on; negative
heights and ages are clamped to 0 by `__init__`). -/
structure Plant where
  name : String
  height : Int
  age : Int
deriving DecidableEq, Repr

/-- Model of `Plant.__init__`. -/
def Plant.init (name : String) (height age : Int) : Plant :=
  { name := name, height := if height ≥ 0 then height else 0,
    age := if age ≥ 0 then age else 0 }

/-- Model of `Garden` state. -/
structure Garden where
  name : String
  plants : List Plant
  total_growth : Int
  plants_added : Nat
deriving DecidableEq, Repr

/-- Model of `Garden.__init__`. -/
def Garden.init (name : String) : Garden :=
  { name := name, plants := [], total_growth := 0, plants_added := 0 }

/-- Model of `Garden.add_plant`. -/
def Garden.add_plant (g : Garden) (p : Plant) : Garden :=
  { g with plants := g.plants ++ [p], plants_added := g.plants_added + 1 }

/-- Model of `Garden.grow_all_plants`: every plant grows by 1cm, and
`total_growth` increases by the observed height difference (1 per
plant). -/
def Garden.grow_all_plants (g : Garden) : Garden :=
  { g with plants := g.plants.map fun p => { p with height := p.height + 1 },
           total_growth := g.total_growth + g.plants.length }

/-- Model of `Garden.calculate_score`: sum of the plant heights. -/
def Garden.calculate_score (g : Garden) : Int :=
  (g.plants.map fun p => p.height).sum

/-- Model of `GardenManager` instance state (its `gardens` dictionary).  The
module-level class counter `total_gardens_created` is threaded
explicitly through the constructing operations. -/
structure GardenManager where
  gardens : List (String × Garden)
deriving DecidableEq, Repr

/-- Model of `GardenManager.__init__`: fresh empty manager, and
`GardenManager.total_gardens_created += 1` — the only statement in the
file that modifies the counter. -/
def GardenManager.init (total_gardens_created : Nat) : GardenManager × Nat :=
  ({ gardens := [] }, total_gardens_created + 1)

/-- Model of `GardenManager.create_garden` (does not touch the class counter). -/
def GardenManager.create_garden (m : GardenManager) (garden_name : String) :
    Garden × GardenManager :=
  let garden := Garden.init garden_name
  (garden, { m with gardens := pyDictInsert m.gardens garden_name garden })

/-- Model of `GardenManager.add_plant_to_garden` (does not touch the class
counter). -/
def GardenManager.add_plant_to_garden (m : GardenManager)
    (garden_name : String) (plant : Plant) : GardenManager :=
  let m1 := if (m.gardens.lookup garden_name).isNone then
    (m.create_garden garden_name).2 else m
  match m1.gardens.lookup garden_name with
  | some g => { m1 with
      gardens := pyDictInsert m1.gardens garden_name (g.add_plant plant) }
  | none => m1

/-- The `default_names` of `create_garden_network`. -/
def default_names : List String := ["Alice", "Bob", "Charlie", "Diana", "Eve"]

/-- Model of `GardenManager.create_garden_network`: calls `cls()` once (one
`__init__`, one counter increment) and then `create_garden` for
`min(num_gardens, 5)` default names. -/
def GardenManager.create_garden_network (num_gardens : Int)
    (total_gardens_created : Nat) : GardenManager × Nat :=
  let r := GardenManager.init total_gardens_created
  let network := (List.range (min num_gardens 5).toNat).foldl
    (fun net i => (net.create_garden (default_names.getD i "")).2) r.1
  (network, r.2)

/-- One operation of a program run against the `GardenManager` class:
construct a manager (directly or via `create_garden_network`), or act
on the `idx`-th constructed manager. -/
inductive GMOp where
  | construct
  | construct_network (num_gardens : Int)
  | create_garden (idx : Nat) (garden_name : String)
  | add_plant_to_garden (idx : Nat) (garden_name : String) (plant : Plant)
deriving DecidableEq, Repr

/-- Whether an operation constructs a `GardenManager` instance. -/
def GMOp.isConstruction : GMOp → Bool
  | .construct => true
  | .construct_network _ => true
  | _ => false

/-- The module state: the managers constructed so far and the class
counter `GardenManager.total_gardens_created`. -/
structure GMState where
  managers : List GardenManager
  total_gardens_created : Nat
deriving DecidableEq, Repr

/-- Replace the `i`-th manager by `f` of it (no-op out of range). -/
def modifyManager : List GardenManager → Nat →
    (GardenManager → GardenManager) → List GardenManager
  | [], _, _ => []
  | m :: r, 0, f => f m :: r
  | m :: r, i + 1, f => m :: modifyManager r i f

/-- Execute one operation on the module state. -/
def stepOp (s : GMState) : GMOp → GMState
  | .construct =>
      let r := GardenManager.init s.total_gardens_created
      { managers := s.managers ++ [r.1], total_gardens_created := r.2 }
  | .construct_network n =>
      let r := GardenManager.create_garden_network n s.total_gardens_created
      { managers := s.managers ++ [r.1], total_gardens_created := r.2 }
  | .create_garden i name =>
      { s with managers := modifyManager s.managers i (fun m => (m.create_garden name).2) }
  | .add_plant_to_garden i name p =>
      { s with managers := modifyManager s.managers i (fun m => m.add_plant_to_garden name p) }

/-- Run a sequence of operations from module load (counter `0`, no
instances). -/
def runOps (ops : List GMOp) : GMState :=
  ops.foldl stepOp { managers := [], total_gardens_created := 0 }

end Module01

/-- Claim C1: running `ft_score_analytics` with command-line arguments
`1500 2300 1800 2100 1950` prints exactly the documented demonstration
statistics: the processed list, 5 players, total 9650, average 1930.0,
high 2300, low 1500, range 800. -/
theorem C1_score_analytics_demo :
    Module00.ft_score_analytics ["1500", "2300", "1800", "2100", "1950"] =
      [.header,
       .scoresProcessed [1500, 2300, 1800, 2100, 1950],
       .totalPlayers 5,
       .totalScore 9650,
       .averageScore 1930,
       .highScore 2300,
       .lowScore 1500,
       .scoreRange 800] := by
  have hparse : List.filterMap Module00.pyInt ["1500", "2300", "1800", "2100", "1950"] =
      [1500, 2300, 1800, 2100, 1950] := by decide
  have hwarn : List.filterMap
      (fun a => if (Module00.pyInt a).isNone = true
                then some (Module00.ScoreLine.warning a) else none)
      ["1500", "2300", "1800", "2100", "1950"] = [] := by decide
  have hmax : Module00.listMax [1500, 2300, 1800, 2100, 1950] = 2300 := by decide
  have hmin : Module00.listMin [1500, 2300, 1800, 2100, 1950] = 1500 := by decide
  have hsum : List.sum [(1500 : Int), 2300, 1800, 2100, 1950] = 9650 := by decide
  simp only [Module00.ft_score_analytics, hparse, hwarn, hmax, hmin, hsum,
    List.isEmpty_cons, List.length_cons, List.length_nil, List.nil_append,
    Bool.false_eq_true, if_false]
  norm_num

/-- Claim C2: for every accepted number of days `n ≥ 0`, the recursive
countdown and the iterative countdown print exactly the same lines:
`Day 1` through `Day n` in ascending order, then `Harvest time!`. -/
theorem C2_harvest_recursive_eq_iterative (n : Nat) :
    Module00.ft_count_harvest_recursive n = Module00.ft_count_harvest_iterative n ∧
    Module00.ft_count_harvest_recursive n =
      (List.range n).map (fun i => .day (i + 1)) ++ [.harvest] := by
  have key : ∀ m : Nat,
      Module00.recursive m = (List.range m).map (fun i => .day (i + 1)) := by
    intro m
    induction m with
    | zero => rfl
    | succ k ih =>
        rw [Module00.recursive, ih, List.range_succ, List.map_append]
        rfl
  constructor
  · unfold Module00.ft_count_harvest_recursive Module00.ft_count_harvest_iterative
    rw [key]
  · unfold Module00.ft_count_harvest_recursive
    rw [key]

/-- Claim C3 (actual behaviour): `test_custom_errors` does *not* run to
completion.  The first two errors are raised and caught, but the
`WaterError` handler evaluates `e.message`, an attribute no exception
of the script defines, so an unhandled `AttributeError` escapes right
after `Testing WaterError...` and the demo never reaches its final
line. -/
theorem C3_test_custom_errors_crashes :
    Module02.runPy Module02.test_custom_errors =
      (.error (.attributeError "'WaterError' object has no attribute 'message'"),
       ["=== Custom Garden Errors Demo ===\n",
        "Testing PlantError...",
        "Caught PlantError: The tomato plant is wilting!",
        "",
        "Testing WaterError..."]) := by
  rfl

/-- Model of `garden_operations` consults the filesystem only through
`open("missing.txt")`, so any filesystem with no `missing.txt` gives
the same behaviour as the empty one. -/
theorem Module02.garden_operations_fs_congr (fs : String → Option String)
    (h : fs "missing.txt" = none) (op : String) :
    Module02.garden_operations fs op =
      Module02.garden_operations (fun _ => none) op := by
  unfold Module02.garden_operations Module02.pyOpen
  rw [h]

/-- Claim C4: with no file named `missing.txt`, `garden_operations`
raises `ValueError` for `'value'`, `ZeroDivisionError` for
`'division'`, `FileNotFoundError` for `'file'` and `KeyError` for
`'key'`; `test_error_types` catches each at the point of occurrence,
prints a user-facing message, and runs to completion with no unhandled
exception. -/
theorem C4_different_errors (fs : String → Option String)
    (h : fs "missing.txt" = none) :
    Module02.runPy (Module02.test_error_types fs) =
      (.ok (),
       ["=== Garden Error Types Demo ===\n",
        "Testing ValueError...",
        "Caught ValueError: invalid literal for int() with base 10: 'abc'",
        "",
        "Testing ZeroDivisionError...",
        "Caught ZeroDivisionError: division by zero",
        "",
        "Testing FileNotFoundError...",
        "Caught FileNotFoundError: No such file 'missing.txt'",
        "",
        "Testing KeyError...",
        "Caught KeyError: 'missing_plant'",
        "",
        "Testing multiple errors together...",
        "Caught an error, but program continues!",
        "Caught an error, but program continues!",
        "Caught an error, but program continues!",
        "Caught an error, but program continues!",
        "\nAll error types tested successfully!"]) ∧
    Module02.runPy (Module02.garden_operations fs "value") =
      (.error (.valueError "invalid literal for int() with base 10: 'abc'"), []) ∧
    Module02.runPy (Module02.garden_operations fs "division") =
      (.error (.zeroDivisionError "division by zero"), []) ∧
    Module02.runPy (Module02.garden_operations fs "file") =
      (.error (.fileNotFoundError "[Errno 2] No such file or directory: 'missing.txt'"), []) ∧
    Module02.runPy (Module02.garden_operations fs "key") =
      (.error (.keyError "'missing_plant'"), []) := by
  have hfun : Module02.garden_operations fs =
      Module02.garden_operations (fun _ => none) :=
    funext (Module02.garden_operations_fs_congr fs h)
  have htest : Module02.test_error_types fs =
      Module02.test_error_types (fun _ => none) := by
    unfold Module02.test_error_types
    rw [hfun]
  exact ⟨by rw [htest]; rfl, by rw [hfun]; rfl, by rw [hfun]; rfl,
    by rw [hfun]; rfl, by rw [hfun]; rfl⟩

/-- Witness for C4: the empty filesystem has no `missing.txt`, and on
it `test_error_types` indeed completes with the documented output. -/
theorem C4_different_errors_witness :
    Module02.runPy (Module02.garden_operations (fun _ => none) "key") =
      (.error (.keyError "'missing_plant'"), []) :=
  (C4_different_errors (fun _ => none) rfl).2.2.2.2

/-- Claim C5 (counterexample): the claim that no file of the repository
imports from another file fails: `tournament_platform.py` imports
`ex4.tournament_card`, a module defined by a file of the repository, so
it is not self-contained. -/
theorem C5_counterexample_cross_file_import :
    Module07.self_contained Module07.tournament_platform_imports = false ∧
    "ex4.tournament_card" ∈ Module07.tournament_platform_imports ∧
    "ex4.tournament_card" ∈ Module07.repository_modules := by
  decide

/-- Claim C5 (amended): not every file is self-contained: scripts such as
`ft_score_analytics.py` import only the standard library, but the
`python_module_07/ex4` files depend on classes defined in other files
of the repository (`tournament_platform.py` on `ex4.tournament_card`,
`tournament_card.py` on `ex0.card`, `ex2.combatable` and
`ex4.rankable`). -/
theorem C5_amended_not_all_files_self_contained :
    Module07.self_contained Module07.ft_score_analytics_imports = true ∧
    Module07.self_contained Module07.tournament_card_imports = false ∧
    Module07.self_contained Module07.tournament_platform_imports = false ∧
    "ex4.tournament_card" ∈ Module07.tournament_platform_imports ∧
    "ex0.card" ∈ Module07.tournament_card_imports ∧
    "ex2.combatable" ∈ Module07.tournament_card_imports ∧
    "ex4.rankable" ∈ Module07.tournament_card_imports := by
  decide

/-- Claim C8: every `TournamentCard` satisfies
`rating = (1200 - (7 - cost) * 50) + 16 * wins - 16 * losses` after
construction (where `wins = losses = 0`) and after every successful
`update_wins` / `update_losses` call (success encodes the non-negative
argument check). -/
theorem C8_rating_invariant_maintained :
    (∀ name cost rarity attack health defense c,
        Module07.TournamentCard.init name cost rarity attack health defense =
          .ok c → Module07.rating_invariant c) ∧
    (∀ c wins c', Module07.TournamentCard.update_wins c wins = .ok c' →
        Module07.rating_invariant c') ∧
    (∀ c losses c', Module07.TournamentCard.update_losses c losses = .ok c' →
        Module07.rating_invariant c') := by
  refine ⟨?_, ?_, ?_⟩
  · intro name cost rarity attack health defense c h
    unfold Module07.TournamentCard.init at h
    split_ifs at h
    injection h with h
    subst h
    simp only [Module07.rating_invariant, Module07.calculate_rating]
    ring
  · intro c wins c' h
    unfold Module07.TournamentCard.update_wins at h
    split_ifs at h
    injection h with h
    subst h
    simp only [Module07.rating_invariant, Module07.calculate_rating]
    ring
  · intro c losses c' h
    unfold Module07.TournamentCard.update_losses at h
    split_ifs at h
    injection h with h
    subst h
    simp only [Module07.rating_invariant, Module07.calculate_rating]
    ring

/-- Witness for C8: the card `TournamentCard("Dragon", 5, "Rare", 8,
10, 3)` is constructed with rating `1100 = 1200 - (7 - 5) * 50` and
satisfies the invariant, as does the card after `update_wins(2)`. -/
theorem C8_rating_invariant_maintained_witness :
    Module07.rating_invariant
      { name := "Dragon", cost := 5, rarity := "Rare", attack_power := 8,
        max_health := 10, health := 10, defense := 3, wins := 0, losses := 0,
        rating := 1100 } ∧
    Module07.rating_invariant
      { name := "Dragon", cost := 5, rarity := "Rare", attack_power := 8,
        max_health := 10, health := 10, defense := 3, wins := 2, losses := 0,
        rating := 1132 } :=
  ⟨C8_rating_invariant_maintained.1 "Dragon" 5 "Rare" 8 10 3 _ rfl,
   C8_rating_invariant_maintained.2.1
     { name := "Dragon", cost := 5, rarity := "Rare", attack_power := 8,
       max_health := 10, health := 10, defense := 3, wins := 0, losses := 0,
       rating := 1100 } 2 _ rfl⟩

/-- Any key of the card dictionary shows up among the `card_id`s of the
leaderboard (sorting permutes the rows but drops none). -/
theorem Module07.mem_leaderboard_ids (p : Module07.TournamentPlatform)
    (k : String) (h : k ∈ p._cards.map Prod.fst) :
    k ∈ p.get_leaderboard.map fun e => e.card_id := by
  unfold Module07.TournamentPlatform.get_leaderboard
  rw [List.map_map]
  have hids : ((p._cards.mergeSort fun a b => b.2.rating ≤ a.2.rating).enum.map
      ((fun e => e.card_id) ∘ fun ie =>
        ({ rank := ie.1 + 1, card_id := ie.2.1, name := ie.2.2.name,
           rating := ie.2.2.rating,
           record := toString ie.2.2.wins ++ "-" ++ toString ie.2.2.losses } :
           Module07.LeaderboardEntry))) =
      (p._cards.mergeSort fun a b => b.2.rating ≤ a.2.rating).map Prod.fst := by
    have hsnd : ∀ (l : List (String × Module07.TournamentCard)),
        l.enum.map (fun ie => ie.2.1) = l.map Prod.fst := by
      intro l
      have h1 : l.enum.map Prod.snd = l := List.enum_map_snd l
      calc l.enum.map (fun ie => ie.2.1)
          = (l.enum.map Prod.snd).map Prod.fst := by rw [List.map_map]; rfl
        _ = l.map Prod.fst := by rw [h1]
    exact hsnd _
  rw [hids]
  have hperm : List.Perm
      ((p._cards.mergeSort fun a b => b.2.rating ≤ a.2.rating).map Prod.fst)
      (p._cards.map Prod.fst) :=
    (List.mergeSort_perm p._cards _).map Prod.fst
  exact hperm.mem_iff.mpr h

/-- A `pyDictInsert` always leaves the inserted key among the keys. -/
theorem mem_keys_pyDictInsert {α : Type} (d : List (String × α)) (k : String)
    (v : α) : k ∈ (pyDictInsert d k v).map Prod.fst := by
  unfold pyDictInsert
  by_cases h : d.any (fun kv => kv.1 == k) = true
  · rw [if_pos h]
    obtain ⟨kv, hkv, he⟩ := List.any_eq_true.mp h
    rw [List.map_map]
    refine List.mem_map.mpr ⟨kv, hkv, ?_⟩
    simp only [Function.comp_apply, he, if_pos]
  · rw [if_neg h, List.map_append]
    exact List.mem_append_right _ (by simp)

/-- Claim C6 (counterexample): entities do persist across operations on
the same platform: registering the card `TournamentCard("Dragon", 5,
"Rare", 8, 10, 3)` (whose constructed state is the record below) on a
fresh platform stores it under `"dragon_001"`, and a later
`get_leaderboard` call on that platform reports exactly that card,
whereas the leaderboard before the registration was empty. -/
theorem C6_counterexample_card_visible_after_register :
    Module07.TournamentCard.init "Dragon" 5 "Rare" 8 10 3 =
      .ok { name := "Dragon", cost := 5, rarity := "Rare", attack_power := 8,
            max_health := 10, health := 10, defense := 3, wins := 0,
            losses := 0, rating := 1100 } ∧
    ((Module07.TournamentPlatform.init.register_card
        { name := "Dragon", cost := 5, rarity := "Rare", attack_power := 8,
          max_health := 10, health := 10, defense := 3, wins := 0,
          losses := 0, rating := 1100 }).2.get_leaderboard).map
      (fun e => e.card_id) = ["dragon_001"] ∧
    Module07.TournamentPlatform.init.get_leaderboard = [] := by
  refine ⟨rfl, ?_, ?_⟩
  · have hreg : (Module07.TournamentPlatform.init.register_card
        { name := "Dragon", cost := 5, rarity := "Rare", attack_power := 8,
          max_health := 10, health := 10, defense := 3, wins := 0,
          losses := 0, rating := 1100 }).2 =
        { _cards := [("dragon_001",
            { name := "Dragon", cost := 5, rarity := "Rare", attack_power := 8,
              max_health := 10, health := 10, defense := 3, wins := 0,
              losses := 0, rating := 1100 })],
          _matches_played := 0, _platform_status := "active" } := rfl
    rw [hreg]
    simp only [Module07.TournamentPlatform.get_leaderboard,
      List.mergeSort_singleton]
    rfl
  · simp only [Module07.TournamentPlatform.get_leaderboard,
      Module07.TournamentPlatform.init, List.mergeSort_nil]
    rfl

/-- Claim C6 (amended): state does persist within a platform: for every
`TournamentPlatform` and every card, the id returned by `register_card`
is visible to any later `get_leaderboard` call on the resulting
platform — its row appears on the leaderboard. -/
theorem C6_amended_register_visible_to_leaderboard
    (p : Module07.TournamentPlatform) (card : Module07.TournamentCard) :
    (p.register_card card).1 ∈
      ((p.register_card card).2.get_leaderboard).map fun e => e.card_id := by
  apply Module07.mem_leaderboard_ids
  exact mem_keys_pyDictInsert p._cards _ card

/-- Claim C10: `check_water_tank` never raises `WaterError("Water tank is
empty")`: the `tank_level < 0` branch is dead because `tank_level < 20`
is tested first, so every level below 20 raises `WaterError("Not enough
water in the tank")` and every level of 20 or more succeeds. -/
theorem C10_water_tank_empty_unreachable (tank_level : Int) :
    Module02.check_water_tank tank_level =
      (if tank_level < 20 then
        .error (.waterError "Not enough water in the tank")
       else
        .ok ("Water tank level is good: " ++ toString tank_level ++ "%")) ∧
    Module02.check_water_tank tank_level ≠
      .error (.waterError "Water tank is empty") := by
  unfold Module02.check_water_tank
  by_cases h : tank_level < 20
  · simp [h]
  · have h0 : ¬ tank_level < 0 := by omega
    simp [h, h0]

/-- Model of `modifyManager` never changes how many managers exist. -/
theorem Module01.modifyManager_length :
    ∀ (l : List Module01.GardenManager) (i : Nat)
      (f : Module01.GardenManager → Module01.GardenManager),
      (Module01.modifyManager l i f).length = l.length
  | [], _, _ => rfl
  | _ :: _, 0, _ => rfl
  | m :: r, i + 1, f => by
      simp [Module01.modifyManager, Module01.modifyManager_length r i f]

/-- Each operation changes the counter and the instance count by one
exactly when it is a construction. -/
theorem Module01.stepOp_spec (s : Module01.GMState) (op : Module01.GMOp) :
    (Module01.stepOp s op).total_gardens_created =
      s.total_gardens_created + (if op.isConstruction then 1 else 0) ∧
    (Module01.stepOp s op).managers.length =
      s.managers.length + (if op.isConstruction then 1 else 0) := by
  cases op with
  | construct =>
      simp [Module01.stepOp, Module01.GardenManager.init,
        Module01.GMOp.isConstruction]
  | construct_network n =>
      simp [Module01.stepOp, Module01.GardenManager.create_garden_network,
        Module01.GardenManager.init, Module01.GMOp.isConstruction]
  | create_garden i name =>
      simp [Module01.stepOp, Module01.GMOp.isConstruction,
        Module01.modifyManager_length]
  | add_plant_to_garden i name p =>
      simp [Module01.stepOp, Module01.GMOp.isConstruction,
        Module01.modifyManager_length]

/-- Claim C7: for every sequence of operations against `GardenManager`
(direct constructions, `create_garden_network` constructions, and
non-constructing instance operations), the class counter
`total_gardens_created` equals the number of constructions executed,
which is exactly the number of instances in existence: each `__init__`
increments it once and nothing else modifies it. -/
theorem C7_total_gardens_created_counts_instances (ops : List Module01.GMOp) :
    (Module01.runOps ops).total_gardens_created =
      ops.countP Module01.GMOp.isConstruction ∧
    (Module01.runOps ops).total_gardens_created =
      (Module01.runOps ops).managers.length := by
  have key : ∀ (l : List Module01.GMOp) (s : Module01.GMState),
      (l.foldl Module01.stepOp s).total_gardens_created =
        s.total_gardens_created + l.countP Module01.GMOp.isConstruction ∧
      (l.foldl Module01.stepOp s).managers.length =
        s.managers.length + l.countP Module01.GMOp.isConstruction := by
    intro l
    induction l with
    | nil => intro s; simp
    | cons op rest ih =>
        intro s
        obtain ⟨ih1, ih2⟩ := ih (Module01.stepOp s op)
        obtain ⟨hs1, hs2⟩ := Module01.stepOp_spec s op
        rw [List.foldl_cons, List.countP_cons]
        constructor
        · rw [ih1, hs1]; omega
        · rw [ih2, hs2]; omega
  obtain ⟨k1, k2⟩ := key ops { managers := [], total_gardens_created := 0 }
  unfold Module01.runOps
  rw [k1, k2]
  simp

/-- Reading a decimal digit character back as a number. -/
theorem digit_toNat_sub (d : Nat) (h : d < 10) :
    (Nat.digitChar d).toNat - 48 = d := by
  have key : ∀ e : Fin 10, (Nat.digitChar e.val).toNat - 48 = e.val := by decide
  exact key ⟨d, h⟩

/-- Model of `Nat.digitChar` of a decimal digit is a digit character. -/
theorem digitChar_isDigit (d : Nat) (h : d < 10) :
    (Nat.digitChar d).isDigit = true := by
  have key : ∀ e : Fin 10, (Nat.digitChar e.val).isDigit = true := by decide
  exact key ⟨d, h⟩

/-- Every character produced by `natCharsAux` is a digit. -/
theorem natCharsAux_digits :
    ∀ (fuel m : Nat), ∀ c ∈ natCharsAux fuel m, c.isDigit = true := by
  intro fuel
  induction fuel with
  | zero => intro m c hc; simp [natCharsAux] at hc
  | succ f ih =>
      intro m c hc
      cases m with
      | zero => simp [natCharsAux] at hc
      | succ k =>
          rw [natCharsAux] at hc
          rcases List.mem_append.mp hc with h1 | h2
          · exact ih _ c h1
          · rw [List.mem_singleton] at h2
            subst h2
            exact digitChar_isDigit _ (Nat.mod_lt _ (by norm_num))

/-- Appending one digit multiplies the value by ten and adds it. -/
theorem valChars_append_digit (xs : List Char) (c : Char) :
    valChars (xs ++ [c]) = 10 * valChars xs + (c.toNat - 48) := by
  unfold valChars
  rw [List.foldl_append]
  rfl

/-- With enough fuel, `natCharsAux` reads back to its input. -/
theorem valChars_natCharsAux :
    ∀ (fuel m : Nat), m ≤ fuel → valChars (natCharsAux fuel m) = m := by
  intro fuel
  induction fuel with
  | zero =>
      intro m h
      have hm : m = 0 := by omega
      subst hm
      rfl
  | succ f ih =>
      intro m h
      cases m with
      | zero => rfl
      | succ k =>
          rw [natCharsAux, valChars_append_digit]
          have hdiv : (k + 1) / 10 ≤ f := by
            have : (k + 1) / 10 < k + 1 := Nat.div_lt_self (by omega) (by norm_num)
            omega
          rw [ih _ hdiv, digit_toNat_sub _ (Nat.mod_lt _ (by norm_num))]
          omega

/-- Leading zero characters do not change the value. -/
theorem valChars_zeros_append :
    ∀ (k : Nat) (xs : List Char),
      valChars (List.replicate k '0' ++ xs) = valChars xs := by
  intro k
  induction k with
  | zero => intro xs; rfl
  | succ n ih =>
      intro xs
      rw [List.replicate_succ, List.cons_append]
      exact ih xs

/-- Model of `f"{m:03d}"` reads back as `m`. -/
theorem valChars_pyFormat3 (m : Nat) : valChars (pyFormat3 m) = m := by
  unfold pyFormat3 natChars
  rw [valChars_zeros_append]
  exact valChars_natCharsAux m m le_rfl

/-- Model of `f"{m:03d}"` consists of digit characters only. -/
theorem pyFormat3_digits (m : Nat) : ∀ c ∈ pyFormat3 m, c.isDigit = true := by
  intro c hc
  unfold pyFormat3 natChars at hc
  rcases List.mem_append.mp hc with h1 | h2
  · have h0 := List.eq_of_mem_replicate h1
    subst h0
    decide
  · exact natCharsAux_digits _ _ c h2

/-- Model of `takeWhile` / `dropWhile` split a list at the first failing
element when everything before it satisfies the predicate. -/
theorem takeWhile_all_append (P : Char → Bool) :
    ∀ (p : List Char) (x : Char) (r : List Char),
      (∀ c ∈ p, P c = true) → P x = false →
      ((p ++ x :: r).takeWhile P = p ∧ (p ++ x :: r).dropWhile P = x :: r) := by
  intro p
  induction p with
  | nil =>
      intro x r _ hx
      constructor
      · simp [List.takeWhile_cons, hx]
      · simp [List.dropWhile_cons, hx]
  | cons a p' ih =>
      intro x r hall hx
      have ha : P a = true := hall a (List.mem_cons_self a p')
      obtain ⟨h1, h2⟩ := ih x r (fun c hc => hall c (List.mem_cons_of_mem a hc)) hx
      constructor
      · simp [List.cons_append, List.takeWhile_cons, ha, h1]
      · simp [List.cons_append, List.dropWhile_cons, ha, h2]

/-- A generated id determines its pieces: `b ++ "_" ++ digits` can be
read off uniquely (split at the last underscore, since the digit
suffix contains none). -/
theorem underscore_decomp {b p b' p' : List Char}
    (hp : ∀ c ∈ p, c.isDigit = true) (hp' : ∀ c ∈ p', c.isDigit = true)
    (h : b ++ '_' :: p = b' ++ '_' :: p') : b = b' ∧ p = p' := by
  have hrev : p.reverse ++ '_' :: b.reverse = p'.reverse ++ '_' :: b'.reverse := by
    have h2 := congrArg List.reverse h
    simpa [List.reverse_append, List.append_assoc] using h2
  have hU : ('_' : Char).isDigit = false := by decide
  have hpr : ∀ c ∈ p.reverse, Char.isDigit c = true :=
    fun c hc => hp c (List.mem_reverse.mp hc)
  have hpr' : ∀ c ∈ p'.reverse, Char.isDigit c = true :=
    fun c hc => hp' c (List.mem_reverse.mp hc)
  obtain ⟨t1, d1⟩ := takeWhile_all_append Char.isDigit p.reverse '_' b.reverse hpr hU
  obtain ⟨t2, d2⟩ := takeWhile_all_append Char.isDigit p'.reverse '_' b'.reverse hpr' hU
  rw [hrev] at t1 d1
  have hpp : p = p' := by
    have h3 : p.reverse = p'.reverse := by rw [← t1, t2]
    simpa using congrArg List.reverse h3
  have hbb : b = b' := by
    have h4 : ('_' :: b.reverse : List Char) = '_' :: b'.reverse := by rw [← d1, d2]
    have h5 : b.reverse = b'.reverse := by injection h4
    simpa using congrArg List.reverse h5
  exact ⟨hbb, hpp⟩

/-- Model of `prefCount` over a key set extended by one key. -/
theorem prefCount_append (b : List Char) (ks : List (List Char)) (k : List Char) :
    prefCount b (ks ++ [k]) =
      prefCount b ks + (if (b ++ ['_']).isPrefixOf k then 1 else 0) := by
  unfold prefCount
  rw [List.countP_append, List.countP_singleton]

/-- Core freshness step: under the key invariant, the id
`base ++ "_" ++ f"{count + 1:03d}"` generated from the current prefix
count is not among the keys, and inserting it preserves the
invariant. -/
theorem register_step (cards : List (String × Module07.TournamentCard))
    (base : String) (card : Module07.TournamentCard) (cnt : Nat) (id : String)
    (hcnt : cnt = (cards.map Prod.fst).countP
      fun cid => pyStartswith cid (base ++ "_"))
    (hid : id = base ++ "_" ++ (⟨pyFormat3 (cnt + 1)⟩ : String))
    (hinv : KeyInv (cards.map fun kv => kv.1.data)) :
    (id.data ∉ cards.map fun kv => kv.1.data) ∧
    KeyInv ((cards ++ [(id, card)]).map fun kv => kv.1.data) := by
  have hid_data : id.data = base.data ++ '_' :: pyFormat3 (cnt + 1) := by
    rw [hid]
    simp [String.data_append]
  have hcnt' : cnt = prefCount base.data (cards.map fun kv => kv.1.data) := by
    rw [hcnt]
    unfold prefCount pyStartswith
    rw [List.countP_map, List.countP_map]
    rfl
  have hfresh : id.data ∉ cards.map fun kv => kv.1.data := by
    intro hmem
    rw [hid_data] at hmem
    have hle := hinv base.data (pyFormat3 (cnt + 1)) (pyFormat3_digits _) hmem
    rw [valChars_pyFormat3, ← hcnt'] at hle
    omega
  refine ⟨hfresh, ?_⟩
  intro b q hq hmem
  rw [List.map_append] at hmem ⊢
  have hmap1 : ([(id, card)].map fun kv => kv.1.data) = [id.data] := rfl
  rw [hmap1] at hmem ⊢
  rcases List.mem_append.mp hmem with hold | hnew
  · have h1 := hinv b q hq hold
    rw [prefCount_append]
    omega
  · rw [List.mem_singleton, hid_data] at hnew
    obtain ⟨hb, hq2⟩ := underscore_decomp hq (pyFormat3_digits _) hnew
    subst hb
    rw [hq2, valChars_pyFormat3, prefCount_append]
    have hshape : id.data = (base.data ++ ['_']) ++ pyFormat3 (cnt + 1) := by
      rw [hid_data]
      simp
    have hpre : (base.data ++ ['_']).isPrefixOf id.data = true := by
      rw [List.isPrefixOf_iff_prefix, hshape]
      exact List.prefix_append _ _
    rw [hpre, ← hcnt']
    simp
  -- note: `b` above names the base string after `subst`

/-- Model of `register_card` on a platform whose keys satisfy the invariant:
the returned id is fresh, the card dictionary grows by exactly that
entry (no overwrite), and the invariant is preserved. -/
theorem register_card_spec (p : Module07.TournamentPlatform)
    (card : Module07.TournamentCard)
    (hinv : KeyInv (p._cards.map fun kv => kv.1.data)) :
    ((p.register_card card).1.data ∉ p._cards.map fun kv => kv.1.data) ∧
    (p.register_card card).2._cards =
      p._cards ++ [((p.register_card card).1, card)] ∧
    KeyInv ((p.register_card card).2._cards.map fun kv => kv.1.data) := by
  have hid : (p.register_card card).1 =
      Module07.base_name_of card.name ++ "_" ++
        (⟨pyFormat3 ((p._cards.map Prod.fst).countP
          (fun cid => pyStartswith cid (Module07.base_name_of card.name ++ "_"))
          + 1)⟩ : String) := rfl
  obtain ⟨hfresh, hkeyinv⟩ := register_step p._cards
    (Module07.base_name_of card.name) card _ _ rfl hid.symm.symm hinv
  have hcards : (p.register_card card).2._cards =
      p._cards ++ [((p.register_card card).1, card)] := by
    have hany : (p._cards.any fun kv => kv.1 == (p.register_card card).1) = false := by
      by_contra hcon
      rw [Bool.not_eq_false] at hcon
      obtain ⟨kv, hkv, heq⟩ := List.any_eq_true.mp hcon
      rw [beq_iff_eq] at heq
      exact hfresh (List.mem_map.mpr ⟨kv, hkv, by rw [heq]⟩)
    show pyDictInsert p._cards (p.register_card card).1 card = _
    unfold pyDictInsert
    rw [if_neg (by simp [hany])]
  exact ⟨hfresh, hcards, by rw [hcards]; exact hkeyinv⟩

/-- Over a whole registration sequence: the final keys are the initial
keys followed by the returned ids, the invariant persists, key
distinctness persists, and each registration adds exactly one entry. -/
theorem registerSeq_spec :
    ∀ (cs : List Module07.TournamentCard) (p : Module07.TournamentPlatform),
      KeyInv (p._cards.map fun kv => kv.1.data) →
      (((Module07.registerSeq p cs).2._cards.map fun kv => kv.1.data) =
        (p._cards.map fun kv => kv.1.data) ++
          ((Module07.registerSeq p cs).1.map String.data)) ∧
      KeyInv ((Module07.registerSeq p cs).2._cards.map fun kv => kv.1.data) ∧
      ((p._cards.map fun kv => kv.1.data).Nodup →
        ((Module07.registerSeq p cs).2._cards.map fun kv => kv.1.data).Nodup) ∧
      (Module07.registerSeq p cs).1.length = cs.length := by
  intro cs
  induction cs with
  | nil =>
      intro p hinv
      exact ⟨by simp [Module07.registerSeq], by
        simpa [Module07.registerSeq] using hinv, fun h => by
        simpa [Module07.registerSeq] using h, rfl⟩
  | cons c cs ih =>
      intro p hinv
      obtain ⟨hfresh, hcards, hinv'⟩ := register_card_spec p c hinv
      obtain ⟨ihkeys, ihinv, ihnodup, ihlen⟩ := ih (p.register_card c).2 hinv'
      have hkeys' : ((p.register_card c).2._cards.map fun kv => kv.1.data) =
          (p._cards.map fun kv => kv.1.data) ++ [(p.register_card c).1.data] := by
        rw [hcards, List.map_append]
        rfl
      have hstep2 : (Module07.registerSeq p (c :: cs)).2 =
          (Module07.registerSeq (p.register_card c).2 cs).2 := rfl
      have hstep1 : (Module07.registerSeq p (c :: cs)).1 =
          (p.register_card c).1 :: (Module07.registerSeq (p.register_card c).2 cs).1 := rfl
      refine ⟨?_, ?_, ?_, ?_⟩
      · rw [hstep2, hstep1, ihkeys, hkeys', List.map_cons]
        simp [List.append_assoc]
      · rw [hstep2]
        exact ihinv
      · intro hnd
        rw [hstep2]
        apply ihnodup
        rw [hkeys', List.nodup_append]
        refine ⟨hnd, List.nodup_singleton _, ?_⟩
        intro x hx hxs
        rw [List.mem_singleton] at hxs
        subst hxs
        exact hfresh hx
      · rw [hstep1, List.length_cons, ihlen, List.length_cons]

/-- Claim C9: starting from a fresh platform, every sequence of
successful `register_card` calls returns pairwise distinct card ids
(`List.Nodup`), and no registration silently overwrites an entry: the
card dictionary ends with exactly one entry per registration. -/
theorem C9_register_card_ids_unique (cs : List Module07.TournamentCard) :
    ((Module07.registerSeq Module07.TournamentPlatform.init cs).1).Nodup ∧
    (Module07.registerSeq Module07.TournamentPlatform.init cs).2._cards.length =
      cs.length := by
  have hinv0 : KeyInv ((Module07.TournamentPlatform.init)._cards.map
      fun kv => kv.1.data) := by
    intro b q hq hmem
    simp [Module07.TournamentPlatform.init] at hmem
  obtain ⟨hkeys, _, hnodup, hlen⟩ :=
    registerSeq_spec cs Module07.TournamentPlatform.init hinv0
  have hinit : ((Module07.TournamentPlatform.init)._cards.map
      fun kv => kv.1.data) = [] := rfl
  rw [hinit, List.nil_append] at hkeys
  constructor
  · have hnd : ((Module07.registerSeq Module07.TournamentPlatform.init cs).2._cards.map
        fun kv => kv.1.data).Nodup := hnodup (by rw [hinit]; exact List.nodup_nil)
    rw [hkeys] at hnd
    exact hnd.of_map
  · have hlength := congrArg List.length hkeys
    rw [List.length_map, List.length_map] at hlength
    rw [hlength, hlen]
